import Mathlib

/-!
Verification of the declarative resource/action schema registry and dynamic
request dispatcher of the Lerian MCP server.

Shallow embedding notes:
* JavaScript strings are modelled as `List Char` (`Str`); string literals are
  injected with `str`.
* The schema registry (`allSchemas`) is transcribed from the static schema
  modules.  Only the fields the dispatcher logic reads are kept: resource
  name, component, action names, HTTP method, path template and the path
  parameter names with their `required` flags.  Documentation-only fields
  (descriptions, input trees, query parameter specs, examples) never influence
  routing, validation or error handling and are omitted.
* Network effects are passed in explicitly: `executeRequest`'s response
  interpretation is the pure function `interpretResponse` of the fetched
  response, `checkHealth` takes the outcome of its fetch as an argument, and
  the execute tool handler `handleExecute` takes a `net` oracle mapping the
  request it would issue to either a payload or a thrown failure.
-/

namespace Midaz


/-- JavaScript strings, modelled as lists of characters. -/
abbrev Str := List Char

/-- Inject a Lean string literal into the `Str` model. -/
def str (x : String) : Str := x.data

/-- `isPre pat s` holds when `pat` occurs at the very start of `s`. -/
def isPre : Str → Str → Bool
  | [], _ => true
  | _ :: _, [] => false
  | p :: ps, c :: cs => p = c && isPre ps cs

/-- `hasSub pat s`: `pat` occurs somewhere in `s` (JS `String.prototype.includes`). -/
def hasSub (pat : Str) : Str → Bool
  | [] => isPre pat []
  | c :: cs => isPre pat (c :: cs) || hasSub pat cs

/-- JS `String.prototype.replace` with a plain-string pattern: replaces only the
first occurrence of `pat`, leaving the rest of the string untouched. -/
def replaceFirst (pat rep : Str) : Str → Str
  | [] => if pat = [] then rep else []
  | c :: cs =>
    if isPre pat (c :: cs) then rep ++ (c :: cs).drop pat.length
    else c :: replaceFirst pat rep cs

/-- Uppercase hexadecimal digit for `n < 16`. -/
def hexDigit (n : Nat) : Char :=
  if n < 10 then Char.ofNat (48 + n) else Char.ofNat (55 + n)

/-- Percent-encoding of one byte, uppercase hex as produced by
`encodeURIComponent` and `URLSearchParams`. -/
def pctByte (b : Nat) : Str := ['%', hexDigit (b / 16), hexDigit (b % 16)]

/-- UTF-8 byte sequence of a code point. -/
def utf8Bytes (n : Nat) : List Nat :=
  if n < 128 then [n]
  else if n < 2048 then [192 + n / 64, 128 + n % 64]
  else if n < 65536 then [224 + n / 4096, 128 + n / 64 % 64, 128 + n % 64]
  else [240 + n / 262144, 128 + n / 4096 % 64, 128 + n / 64 % 64, 128 + n % 64]

/-- The characters `encodeURIComponent` leaves unescaped besides
alphanumerics: `- _ . ! ~ * ' ( )`. -/
def uriUnreservedExtra : List Char := ['-', '_', '.', '!', '~', '*', Char.ofNat 39, '(', ')']

def isUriUnreserved (c : Char) : Bool :=
  c.isAlpha || c.isDigit || uriUnreservedExtra.contains c

/-- JS `encodeURIComponent`: unreserved characters kept, all others replaced by
the percent-encoding of their UTF-8 bytes. -/
def encodeURIComponent (s : Str) : Str :=
  (s.map (fun c =>
    if isUriUnreserved c then [c] else ((utf8Bytes c.toNat).map pctByte).flatten)).flatten

/-- JS `Array.prototype.join` with a separator. -/
def joinSep (sep : Str) : List Str → Str
  | [] => []
  | [x] => x
  | x :: xs => x ++ sep ++ joinSep sep xs

/-- Decimal representation of a natural number. -/
def natToStr (n : Nat) : Str := Nat.toDigits 10 n

/-- JS `String(number)` for integral numbers. -/
def intToStr : Int → Str
  | .ofNat n => natToStr n
  | .negSucc n => '-' :: natToStr (n + 1)

/-- `buildUrl` from `src/api/client.js`: substitutes each supplied path
parameter into the template (JS `replace`: first occurrence only, value
percent-encoded) and prepends the base URL.  `Object.entries` iteration is
modelled by the association list's order. -/
def buildUrl (baseUrl pathTemplate : Str) (pathParams : List (Str × Str)) : Str :=
  baseUrl ++ pathParams.foldl
    (fun acc kv => replaceFirst (':' :: kv.1) (encodeURIComponent kv.2) acc) pathTemplate

/-- One action descriptor of a resource schema: HTTP method, path template and
the declared path parameters with their `required` flags (documentation-only
fields of the JS descriptors are omitted, see the header note).  Schemas that
declare no `pathParams` get the empty list, matching the `|| {}` default. -/
structure ActionDef where
  method : Str
  path : Str
  pathParams : List (Str × Bool)
deriving DecidableEq

/-- One resource schema module: resource name, backend component, actions. -/
structure ResourceSchema where
  resource : Str
  component : Str
  actions : List (Str × ActionDef)
deriving DecidableEq

def mkAction (name method path : String) (ps : List (Str × Bool)) : Str × ActionDef :=
  (str name, { method := str method, path := str path, pathParams := ps })

/-- `{ organizationId }`, all required. -/
def pOrg : List (Str × Bool) := [(str "organizationId", true)]

/-- `{ organizationId, ledgerId }`, all required. -/
def pOL : List (Str × Bool) := [(str "organizationId", true), (str "ledgerId", true)]

/-- `{ organizationId, ledgerId, id }`, all required. -/
def pOLI : List (Str × Bool) := pOL ++ [(str "id", true)]

/-- `{ id }`, required. -/
def pId : List (Str × Bool) := [(str "id", true)]

/-- `{ organizationId, ledgerId, <extra> }`, all required. -/
def pOLx (nm : String) : List (Str × Bool) := pOL ++ [(str nm, true)]

/-- `{ organizationId, ledgerId, accountId }`, all required. -/
def pOLA : List (Str × Bool) := pOLx "accountId"

/-- `{ organizationId, ledgerId, accountId, id }`, all required. -/
def pOLAI : List (Str × Bool) := pOLA ++ [(str "id", true)]

/-- `{ organizationId, ledgerId, holderId }`, all required. -/
def pOLH : List (Str × Bool) := pOLx "holderId"

/-- `{ organizationId, ledgerId, holderId, id }`, all required. -/
def pOLHI : List (Str × Bool) := pOLH ++ [(str "id", true)]

/-- `organizationsSchema` from `src/api/schemas/organizations.js`. -/
def organizationsSchema : ResourceSchema :=
  { resource := str "organizations", component := str "onboarding",
    actions :=
      [ mkAction "create" "POST" "/v1/organizations" [],
        mkAction "get" "GET" "/v1/organizations/:id" pId,
        mkAction "list" "GET" "/v1/organizations" [],
        mkAction "update" "PATCH" "/v1/organizations/:id" pId,
        mkAction "delete" "DELETE" "/v1/organizations/:id" pId,
        mkAction "count" "HEAD" "/v1/organizations/metrics/count" [] ] }

/-- `ledgersSchema` from `src/api/schemas/ledgers.js`. -/
def ledgersSchema : ResourceSchema :=
  { resource := str "ledgers", component := str "onboarding",
    actions :=
      [ mkAction "create" "POST" "/v1/organizations/:organizationId/ledgers" pOrg,
        mkAction "get" "GET" "/v1/organizations/:organizationId/ledgers/:id"
          (pOrg ++ [(str "id", true)]),
        mkAction "list" "GET" "/v1/organizations/:organizationId/ledgers" pOrg,
        mkAction "update" "PATCH" "/v1/organizations/:organizationId/ledgers/:id"
          (pOrg ++ [(str "id", true)]),
        mkAction "delete" "DELETE" "/v1/organizations/:organizationId/ledgers/:id"
          (pOrg ++ [(str "id", true)]),
        mkAction "count" "HEAD" "/v1/organizations/:organizationId/ledgers/metrics/count"
          pOrg ] }

/-- `assetsSchema` from `src/api/schemas/assets.js`. -/
def assetsSchema : ResourceSchema :=
  { resource := str "assets", component := str "onboarding",
    actions :=
      [ mkAction "create" "POST"
          "/v1/organizations/:organizationId/ledgers/:ledgerId/assets" pOL,
        mkAction "get" "GET"
          "/v1/organizations/:organizationId/ledgers/:ledgerId/assets/:id" pOLI,
        mkAction "list" "GET"
          "/v1/organizations/:organizationId/ledgers/:ledgerId/assets" pOL,
        mkAction "update" "PATCH"
          "/v1/organizations/:organizationId/ledgers/:ledgerId/assets/:id" pOLI,
        mkAction "delete" "DELETE"
          "/v1/organizations/:organizationId/ledgers/:ledgerId/assets/:id" pOLI,
        mkAction "count" "HEAD"
          "/v1/organizations/:organizationId/ledgers/:ledgerId/assets/metrics/count" pOL ] }

/-- `portfoliosSchema` from `src/api/schemas/portfolios.js`. -/
def portfoliosSchema : ResourceSchema :=
  { resource := str "portfolios", component := str "onboarding",
    actions :=
      [ mkAction "create" "POST"
          "/v1/organizations/:organizationId/ledgers/:ledgerId/portfolios" pOL,
        mkAction "get" "GET"
          "/v1/organizations/:organizationId/ledgers/:ledgerId/portfolios/:id" pOLI,
        mkAction "list" "GET"
          "/v1/organizations/:organizationId/ledgers/:ledgerId/portfolios" pOL,
        mkAction "update" "PATCH"
          "/v1/organizations/:organizationId/ledgers/:ledgerId/portfolios/:id" pOLI,
        mkAction "delete" "DELETE"
          "/v1/organizations/:organizationId/ledgers/:ledgerId/portfolios/:id" pOLI,
        mkAction "count" "HEAD"
          "/v1/organizations/:organizationId/ledgers/:ledgerId/portfolios/metrics/count"
          pOL ] }

/-- `segmentsSchema` from `src/api/schemas/segments.js`. -/
def segmentsSchema : ResourceSchema :=
  { resource := str "segments", component := str "onboarding",
    actions :=
      [ mkAction "create" "POST"
          "/v1/organizations/:organizationId/ledgers/:ledgerId/segments" pOL,
        mkAction "get" "GET"
          "/v1/organizations/:organizationId/ledgers/:ledgerId/segments/:id" pOLI,
        mkAction "list" "GET"
          "/v1/organizations/:organizationId/ledgers/:ledgerId/segments" pOL,
        mkAction "update" "PATCH"
          "/v1/organizations/:organizationId/ledgers/:ledgerId/segments/:id" pOLI,
        mkAction "delete" "DELETE"
          "/v1/organizations/:organizationId/ledgers/:ledgerId/segments/:id" pOLI,
        mkAction "count" "HEAD"
          "/v1/organizations/:organizationId/ledgers/:ledgerId/segments/metrics/count"
          pOL ] }

/-- `accountsSchema` from `src/api/schemas/accounts.js`. -/
def accountsSchema : ResourceSchema :=
  { resource := str "accounts", component := str "onboarding",
    actions :=
      [ mkAction "create" "POST"
          "/v1/organizations/:organizationId/ledgers/:ledgerId/accounts" pOL,
        mkAction "get" "GET"
          "/v1/organizations/:organizationId/ledgers/:ledgerId/accounts/:id" pOLI,
        mkAction "getByAlias" "GET"
          "/v1/organizations/:organizationId/ledgers/:ledgerId/accounts/aliases/:alias"
          (pOLx "alias"),
        mkAction "getByExternalId" "GET"
          "/v1/organizations/:organizationId/ledgers/:ledgerId/accounts/external/:externalId"
          (pOLx "externalId"),
        mkAction "list" "GET"
          "/v1/organizations/:organizationId/ledgers/:ledgerId/accounts" pOL,
        mkAction "update" "PATCH"
          "/v1/organizations/:organizationId/ledgers/:ledgerId/accounts/:id" pOLI,
        mkAction "delete" "DELETE"
          "/v1/organizations/:organizationId/ledgers/:ledgerId/accounts/:id" pOLI,
        mkAction "count" "HEAD"
          "/v1/organizations/:organizationId/ledgers/:ledgerId/accounts/metrics/count"
          pOL ] }

/-- `accountTypesSchema` from `src/api/schemas/account-types.js`. -/
def accountTypesSchema : ResourceSchema :=
  { resource := str "account-types", component := str "onboarding",
    actions :=
      [ mkAction "create" "POST"
          "/v1/organizations/:organizationId/ledgers/:ledgerId/account-types" pOL,
        mkAction "get" "GET"
          "/v1/organizations/:organizationId/ledgers/:ledgerId/account-types/:id" pOLI,
        mkAction "list" "GET"
          "/v1/organizations/:organizationId/ledgers/:ledgerId/account-types" pOL,
        mkAction "update" "PATCH"
          "/v1/organizations/:organizationId/ledgers/:ledgerId/account-types/:id" pOLI,
        mkAction "delete" "DELETE"
          "/v1/organizations/:organizationId/ledgers/:ledgerId/account-types/:id" pOLI ] }

/-- `transactionsSchema` from the transactions schema module. -/
def transactionsSchema : ResourceSchema :=
  { resource := str "transactions", component := str "transaction",
    actions :=
      [ mkAction "create" "POST"
          "/v1/organizations/:organizationId/ledgers/:ledgerId/transactions" pOL,
        mkAction "createDSL" "POST"
          "/v1/organizations/:organizationId/ledgers/:ledgerId/transactions/dsl" pOL,
        mkAction "createInflow" "POST"
          "/v1/organizations/:organizationId/ledgers/:ledgerId/transactions/inflow" pOL,
        mkAction "createOutflow" "POST"
          "/v1/organizations/:organizationId/ledgers/:ledgerId/transactions/outflow" pOL,
        mkAction "createAnnotation" "POST"
          "/v1/organizations/:organizationId/ledgers/:ledgerId/transactions/annotation" pOL,
        mkAction "commit" "POST"
          "/v1/organizations/:organizationId/ledgers/:ledgerId/transactions/:id/commit"
          pOLI,
        mkAction "cancel" "POST"
          "/v1/organizations/:organizationId/ledgers/:ledgerId/transactions/:id/cancel"
          pOLI,
        mkAction "revert" "POST"
          "/v1/organizations/:organizationId/ledgers/:ledgerId/transactions/:id/revert"
          pOLI,
        mkAction "get" "GET"
          "/v1/organizations/:organizationId/ledgers/:ledgerId/transactions/:id" pOLI,
        mkAction "list" "GET"
          "/v1/organizations/:organizationId/ledgers/:ledgerId/transactions" pOL,
        mkAction "update" "PATCH"
          "/v1/organizations/:organizationId/ledgers/:ledgerId/transactions/:id" pOLI ] }

/-- `operationsSchema` from `src/api/schemas/operations.js`. -/
def operationsSchema : ResourceSchema :=
  { resource := str "operations", component := str "transaction",
    actions :=
      [ mkAction "getByAccount" "GET"
          "/v1/organizations/:organizationId/ledgers/:ledgerId/accounts/:accountId/operations"
          pOLA,
        mkAction "get" "GET"
          "/v1/organizations/:organizationId/ledgers/:ledgerId/accounts/:accountId/operations/:id"
          pOLAI,
        mkAction "update" "PATCH"
          "/v1/organizations/:organizationId/ledgers/:ledgerId/accounts/:accountId/operations/:id"
          pOLAI ] }

/-- `balancesSchema` from `src/api/schemas/balances.js`. -/
def balancesSchema : ResourceSchema :=
  { resource := str "balances", component := str "transaction",
    actions :=
      [ mkAction "get" "GET"
          "/v1/organizations/:organizationId/ledgers/:ledgerId/accounts/:accountId/balances/:id"
          pOLAI,
        mkAction "getByAccount" "GET"
          "/v1/organizations/:organizationId/ledgers/:ledgerId/accounts/:accountId/balances"
          pOLA,
        mkAction "getByAlias" "GET"
          "/v1/organizations/:organizationId/ledgers/:ledgerId/balances/aliases/:alias"
          (pOLx "alias"),
        mkAction "getByExternalId" "GET"
          "/v1/organizations/:organizationId/ledgers/:ledgerId/balances/external/:externalId"
          (pOLx "externalId"),
        mkAction "list" "GET"
          "/v1/organizations/:organizationId/ledgers/:ledgerId/balances" pOL,
        mkAction "createAdditional" "POST"
          "/v1/organizations/:organizationId/ledgers/:ledgerId/accounts/:accountId/balances"
          pOLA,
        mkAction "update" "PATCH"
          "/v1/organizations/:organizationId/ledgers/:ledgerId/accounts/:accountId/balances/:id"
          pOLAI,
        mkAction "delete" "DELETE"
          "/v1/organizations/:organizationId/ledgers/:ledgerId/accounts/:accountId/balances/:id"
          pOLAI ] }

/-- `assetRatesSchema` from the asset-rates schema module. -/
def assetRatesSchema : ResourceSchema :=
  { resource := str "asset-rates", component := str "transaction",
    actions :=
      [ mkAction "createOrUpdate" "PUT"
          "/v1/organizations/:organizationId/ledgers/:ledgerId/asset-rates" pOL,
        mkAction "getByExternalId" "GET"
          "/v1/organizations/:organizationId/ledgers/:ledgerId/asset-rates/external/:externalId"
          (pOLx "externalId"),
        mkAction "getByAssetCode" "GET"
          "/v1/organizations/:organizationId/ledgers/:ledgerId/asset-rates/:assetCode"
          (pOLx "assetCode") ] }

/-- `operationRoutesSchema` from `src/api/schemas/operation-routes.js`. -/
def operationRoutesSchema : ResourceSchema :=
  { resource := str "operation-routes", component := str "transaction",
    actions :=
      [ mkAction "create" "POST"
          "/v1/organizations/:organizationId/ledgers/:ledgerId/operation-routes" pOL,
        mkAction "get" "GET"
          "/v1/organizations/:organizationId/ledgers/:ledgerId/operation-routes/:id" pOLI,
        mkAction "list" "GET"
          "/v1/organizations/:organizationId/ledgers/:ledgerId/operation-routes" pOL,
        mkAction "update" "PATCH"
          "/v1/organizations/:organizationId/ledgers/:ledgerId/operation-routes/:id" pOLI,
        mkAction "delete" "DELETE"
          "/v1/organizations/:organizationId/ledgers/:ledgerId/operation-routes/:id"
          pOLI ] }

/-- `transactionRoutesSchema` from the transaction-routes schema module. -/
def transactionRoutesSchema : ResourceSchema :=
  { resource := str "transaction-routes", component := str "transaction",
    actions :=
      [ mkAction "create" "POST"
          "/v1/organizations/:organizationId/ledgers/:ledgerId/transaction-routes" pOL,
        mkAction "get" "GET"
          "/v1/organizations/:organizationId/ledgers/:ledgerId/transaction-routes/:id"
          pOLI,
        mkAction "list" "GET"
          "/v1/organizations/:organizationId/ledgers/:ledgerId/transaction-routes" pOL,
        mkAction "update" "PATCH"
          "/v1/organizations/:organizationId/ledgers/:ledgerId/transaction-routes/:id"
          pOLI,
        mkAction "delete" "DELETE"
          "/v1/organizations/:organizationId/ledgers/:ledgerId/transaction-routes/:id"
          pOLI ] }

/-- `metadataIndexesSchema` from `src/api/schemas/metadata-indexes.js`. -/
def metadataIndexesSchema : ResourceSchema :=
  { resource := str "metadata-indexes", component := str "ledger",
    actions :=
      [ mkAction "create" "POST"
          "/v1/organizations/:organizationId/ledgers/:ledgerId/metadata-indexes/:entityName"
          (pOLx "entityName"),
        mkAction "list" "GET"
          "/v1/organizations/:organizationId/ledgers/:ledgerId/metadata-indexes" pOL,
        mkAction "delete" "DELETE"
          "/v1/organizations/:organizationId/ledgers/:ledgerId/metadata-indexes/:entityName/:metadataKey"
          (pOLx "entityName" ++ [(str "metadataKey", true)]) ] }

/-- `holdersSchema` from the holders schema module. -/
def holdersSchema : ResourceSchema :=
  { resource := str "holders", component := str "crm",
    actions :=
      [ mkAction "create" "POST"
          "/v1/organizations/:organizationId/ledgers/:ledgerId/holders" pOL,
        mkAction "get" "GET"
          "/v1/organizations/:organizationId/ledgers/:ledgerId/holders/:id" pOLI,
        mkAction "list" "GET"
          "/v1/organizations/:organizationId/ledgers/:ledgerId/holders" pOL,
        mkAction "update" "PATCH"
          "/v1/organizations/:organizationId/ledgers/:ledgerId/holders/:id" pOLI,
        mkAction "delete" "DELETE"
          "/v1/organizations/:organizationId/ledgers/:ledgerId/holders/:id" pOLI ] }

/-- `aliasesSchema` from the aliases schema module. -/
def aliasesSchema : ResourceSchema :=
  { resource := str "aliases", component := str "crm",
    actions :=
      [ mkAction "create" "POST"
          "/v1/organizations/:organizationId/ledgers/:ledgerId/holders/:holderId/aliases"
          pOLH,
        mkAction "get" "GET"
          "/v1/organizations/:organizationId/ledgers/:ledgerId/holders/:holderId/aliases/:id"
          pOLHI,
        mkAction "listByHolder" "GET"
          "/v1/organizations/:organizationId/ledgers/:ledgerId/holders/:holderId/aliases"
          pOLH,
        mkAction "listAll" "GET"
          "/v1/organizations/:organizationId/ledgers/:ledgerId/aliases" pOL,
        mkAction "update" "PATCH"
          "/v1/organizations/:organizationId/ledgers/:ledgerId/holders/:holderId/aliases/:id"
          pOLHI,
        mkAction "delete" "DELETE"
          "/v1/organizations/:organizationId/ledgers/:ledgerId/holders/:holderId/aliases/:id"
          pOLHI,
        mkAction "deleteRelatedParty" "DELETE"
          "/v1/organizations/:organizationId/ledgers/:ledgerId/holders/:holderId/aliases/:id/related-parties/:partyId"
          (pOLHI ++ [(str "partyId", true)]) ] }

/-- `allSchemas` from `src/api/schemas/index.js`, in registration order. -/
def allSchemas : List ResourceSchema :=
  [ organizationsSchema, ledgersSchema, assetsSchema, portfoliosSchema,
    segmentsSchema, accountsSchema, accountTypesSchema, transactionsSchema,
    operationsSchema, balancesSchema, assetRatesSchema, operationRoutesSchema,
    transactionRoutesSchema, metadataIndexesSchema, holdersSchema, aliasesSchema ]

/-- `getSchema` from `src/api/schemas/index.js`: lookup by resource name
(`schemaMap.get(resource) || null`; the map is keyed by each schema's
`resource`, first registration wins, names are unique anyway). -/
def getSchema (rs : List ResourceSchema) (resource : Str) : Option ResourceSchema :=
  rs.find? (fun s => s.resource == resource)

/-- `getAllSchemas` from `src/api/schemas/index.js`. -/
def getAllSchemas (rs : List ResourceSchema) : List ResourceSchema := rs

/-- The canonical descriptor returned by `resolveAction` on success
(`input`, `queryParams`, `description`, `example` are documentation data and
omitted, see the header note). -/
structure Descriptor where
  resource : Str
  action : Str
  component : Str
  method : Str
  pathTemplate : Str
  pathParams : List (Str × Bool)
deriving DecidableEq

/-- Result of `resolveAction`: an `{ error }` object or a descriptor.  The
function is total — it never throws. -/
inductive Resolved where
  | error (msg : Str)
  | ok (d : Descriptor)
deriving DecidableEq

def unknownResourceMsg (resource : Str) : Str :=
  str "Unknown resource \"" ++ resource ++
    str "\". Use midaz-discover to list available resources."

def unknownActionMsg (resource action avail : Str) : Str :=
  str "Unknown action \"" ++ action ++ str "\" for resource \"" ++ resource ++
    str "\". Available actions: " ++ avail

/-- JS `schema.actions[action]` property lookup. -/
def lookupAction (acts : List (Str × ActionDef)) (action : Str) : Option ActionDef :=
  (acts.find? (fun p => p.1 == action)).map (fun p => p.2)

/-- `resolveAction` from `src/api/router.js`. -/
def resolveAction (rs : List ResourceSchema) (resource action : Str) : Resolved :=
  match getSchema rs resource with
  | none => .error (unknownResourceMsg resource)
  | some schema =>
    match lookupAction schema.actions action with
    | none => .error (unknownActionMsg resource action
        (joinSep (str ", ") (schema.actions.map (fun p => p.1))))
    | some ad => .ok
        { resource := resource, action := action,
          component := schema.component, method := ad.method,
          pathTemplate := ad.path, pathParams := ad.pathParams }

/-- JS falsiness of `!pathParams[paramName]` for the string-valued map the
execute tool supplies: the key is absent or its value is the empty string. -/
def falsyLookup (m : List (Str × Str)) (k : Str) : Bool :=
  match m.find? (fun p => p.1 == k) with
  | none => true
  | some p => p.2.isEmpty

/-- The batched missing-required-parameter collection of `routeAndExecute`. -/
def missingRequired (declared : List (Str × Bool)) (supplied : List (Str × Str)) :
    List Str :=
  (declared.filter (fun p => p.2 && falsyLookup supplied p.1)).map (fun p => p.1)

def missingMsg (names : List Str) : Str :=
  str "Missing required path parameters: " ++ joinSep (str ", ") names

/-- JavaScript values as they appear in query-parameter maps. -/
inductive JsVal where
  | undef
  | nullv
  | num (n : Int)
  | boolv (b : Bool)
  | strv (s : Str)
  /-- An object (or array) value, carried as its `JSON.stringify` text. -/
  | obj (json : Str)
deriving DecidableEq

/-- JS `String(value)` on the scalar cases. -/
def jsValToStr : JsVal → Str
  | .undef => str "undefined"
  | .nullv => str "null"
  | .num n => intToStr n
  | .boolv b => if b then str "true" else str "false"
  | .strv s => s
  | .obj j => j

/-- Characters the `URLSearchParams` serializer keeps unescaped
(`application/x-www-form-urlencoded`): alphanumerics and `* - . _`. -/
def isFormSafe (c : Char) : Bool :=
  c.isAlpha || c.isDigit || c = '*' || c = '-' || c = '.' || c = '_'

/-- `application/x-www-form-urlencoded` serialization of one string:
space becomes `+`, unsafe characters are percent-encoded (UTF-8). -/
def formEncode (s : Str) : Str :=
  (s.map (fun c =>
    if c = ' ' then ['+']
    else if isFormSafe c then [c]
    else ((utf8Bytes c.toNat).map pctByte).flatten)).flatten

/-- `URLSearchParams.set`: overwrite in place, else append. -/
def setParam (l : List (Str × Str)) (k v : Str) : List (Str × Str) :=
  if l.any (fun p => p.1 == k) then
    l.map (fun p => if p.1 == k then (k, v) else p)
  else l ++ [(k, v)]

/-- One loop iteration of `buildQueryString`: skip `undefined`/`null`, set
`JSON.stringify(value)` for objects (the carried text), `String(value)` for
scalars. -/
def qsStep (acc : List (Str × Str)) (kv : Str × JsVal) : List (Str × Str) :=
  match kv.2 with
  | .undef => acc
  | .nullv => acc
  | .obj j => setParam acc kv.1 j
  | v => setParam acc kv.1 (jsValToStr v)

/-- `URLSearchParams.toString()` plus the `?` prefix (`qs ? `?`+qs : ""`). -/
def qsRender (params : List (Str × Str)) : Str :=
  let qs := joinSep ['&'] (params.map (fun p => formEncode p.1 ++ '=' :: formEncode p.2))
  if qs.isEmpty then [] else '?' :: qs

/-- `buildQueryString` from `src/api/client.js`: skips `undefined`/`null`
entries, JSON-stringifies object values, stringifies scalars, serializes
through `URLSearchParams`, and prefixes `?` when any parameter remains. -/
def buildQueryString (queryParams : List (Str × JsVal)) : Str :=
  if queryParams.isEmpty then []
  else qsRender (queryParams.foldl qsStep [])

/-- The arguments `routeAndExecute` hands to `executeRequest`. -/
structure ApiRequest where
  component : Str
  method : Str
  pathTemplate : Str
  pathParams : List (Str × Str)
  queryParams : List (Str × JsVal)
  body : Option Str
deriving DecidableEq

/-- What `routeAndExecute` does before any network activity: throw, or reach
`executeRequest` with concrete arguments. -/
inductive RouteStep where
  | threw (msg : Str)
  | request (req : ApiRequest)
deriving DecidableEq

/-- `routeAndExecute` from `src/api/router.js`: resolution failure throws the
resolver's message; missing required path parameters are collected into one
batched thrown error; otherwise the call reaches `executeRequest`. -/
def routeAndExecute (rs : List ResourceSchema) (resource action : Str)
    (pathParams : List (Str × Str)) (queryParams : List (Str × JsVal))
    (body : Option Str) : RouteStep :=
  match resolveAction rs resource action with
  | .error msg => .threw msg
  | .ok d =>
    let missing := missingRequired d.pathParams pathParams
    if missing.isEmpty then
      .request
        { component := d.component, method := d.method,
          pathTemplate := d.pathTemplate, pathParams := pathParams,
          queryParams := queryParams, body := body }
    else .threw (missingMsg missing)

/-- `getEndpointCount` from `src/api/router.js`. -/
def getEndpointCount (rs : List ResourceSchema) : Nat :=
  rs.foldl (fun count schema => count + schema.actions.length) 0

/-- One entry of `listResources` (`description` omitted). -/
structure ResourceListing where
  resource : Str
  component : Str
  actions : List Str
deriving DecidableEq

/-- `listResources` from `src/api/schemas/index.js`. -/
def listResources (rs : List ResourceSchema) : List ResourceListing :=
  rs.map (fun s =>
    { resource := s.resource, component := s.component,
      actions := s.actions.map (fun p => p.1) })

/-- The payload of `handleDiscover`'s `list-resources` intent (resource
descriptions and the hint text omitted). -/
structure DiscoverSummary where
  totalResources : Nat
  totalEndpoints : Nat
  onboarding : List ResourceListing
  transaction : List ResourceListing
  crm : List ResourceListing
  ledger : List ResourceListing
deriving DecidableEq

/-- The `list-resources` branch of `handleDiscover`. -/
def discoverListResources (rs : List ResourceSchema) : DiscoverSummary :=
  let resources := listResources rs
  { totalResources := resources.length,
    totalEndpoints := getEndpointCount rs,
    onboarding := resources.filter (fun r => r.component == str "onboarding"),
    transaction := resources.filter (fun r => r.component == str "transaction"),
    crm := resources.filter (fun r => r.component == str "crm"),
    ledger := resources.filter (fun r => r.component == str "ledger") }

/-- A fetched HTTP response as `executeRequest` observes it.  `jsonBody` is
the value `response.json()` would produce (carried as its text), `textBody`
the raw text of `response.text()`. -/
structure HttpResponse where
  status : Nat
  statusText : Str
  headers : List (Str × Str)
  jsonBody : Str
  textBody : Str
deriving DecidableEq

def toLowerStr (s : Str) : Str := s.map Char.toLower

def toUpperStr (s : Str) : Str := s.map Char.toUpper

/-- fetch `Headers.get`: case-insensitive lookup, `null` when absent. -/
def headersGet (hs : List (Str × Str)) (name : Str) : Option Str :=
  (hs.find? (fun p => toLowerStr p.1 == toLowerStr name)).map (fun p => p.2)

/-- `response.ok`: status in the 2xx range. -/
def respOk (status : Nat) : Bool := 200 ≤ status && status ≤ 299

/-- A response body after method/content-type-aware parsing: JSON value or
raw text. -/
inductive BodyV where
  | json (j : Str)
  | text (t : Str)
deriving DecidableEq

/-- The structured failure `executeRequest` raises on a non-2xx response:
`status`, `statusText`, parsed-or-raw `body`, resolved `url`, and the
`Error` message. -/
structure ApiFailure where
  status : Nat
  statusText : Str
  body : BodyV
  url : Str
  message : Str
deriving DecidableEq

/-- A success payload of `executeRequest`: the HEAD reshaping, the DELETE-204
reshaping, or the parsed body. -/
inductive RespPayload where
  | headResult (status : Nat) (headers : List (Str × Str)) (count : Option Str)
  | deleted
  | body (b : BodyV)
deriving DecidableEq

inductive ExecOutcome where
  | ok (payload : RespPayload)
  | fail (f : ApiFailure)
deriving DecidableEq

/-- JS `a || b` on nullable header strings (an empty string is falsy). -/
def firstTruthy (a b : Option Str) : Option Str :=
  match a with
  | some v => if v.isEmpty then b else some v
  | none => b

/-- Response interpretation of `executeRequest` (`src/api/client.js`):
HEAD reshaping, DELETE-204 reshaping, JSON-or-text body parsing, and the
structured failure raised when `response.ok` is false. -/
def interpretResponse (method url : Str) (r : HttpResponse) : ExecOutcome :=
  if toUpperStr method == str "HEAD" then
    .ok (.headResult r.status r.headers
      (firstTruthy (headersGet r.headers (str "Midaz-Total-Count"))
        (headersGet r.headers (str "midaz-total-count"))))
  else if toUpperStr method == str "DELETE" && r.status == 204 then .ok .deleted
  else
    let contentType := match headersGet r.headers (str "content-type") with
      | some v => v
      | none => []
    let responseBody := if hasSub (str "application/json") contentType then
        BodyV.json r.jsonBody
      else BodyV.text r.textBody
    if respOk r.status then .ok (.body responseBody)
    else .fail
      { status := r.status, statusText := r.statusText, body := responseBody,
        url := url,
        message := str "Midaz API error: " ++ natToStr r.status ++ ' ' :: r.statusText }

/-- The per-component base URLs of the resolved configuration. -/
structure MidazApiConfig where
  onboardingUrl : Str
  transactionUrl : Str
  crmUrl : Str
  ledgerUrl : Str
deriving DecidableEq

/-- `getComponentUrl` from `src/api/client.js`: `urlMap[component] ||
onboardingUrl` (an unknown component, or a falsy configured URL, falls back
to the onboarding URL). -/
def getComponentUrl (m : MidazApiConfig) (component : Str) : Str :=
  let v : Option Str :=
    if component == str "onboarding" then some m.onboardingUrl
    else if component == str "transaction" then some m.transactionUrl
    else if component == str "crm" then some m.crmUrl
    else if component == str "ledger" then some m.ledgerUrl
    else none
  match v with
  | some u => if u.isEmpty then m.onboardingUrl else u
  | none => m.onboardingUrl

/-- The URL `executeRequest` resolves before fetching. -/
def resolveUrl (m : MidazApiConfig) (req : ApiRequest) : Str :=
  buildUrl (getComponentUrl m req.component) req.pathTemplate req.pathParams ++
    buildQueryString req.queryParams

/-- `executeRequest` from `src/api/client.js`, with the fetch passed in as
the response it produced: resolves the URL and interprets the response. -/
def executeRequest (m : MidazApiConfig) (req : ApiRequest) (response : HttpResponse) :
    ExecOutcome :=
  interpretResponse req.method (resolveUrl m req) response

/-- The result object `checkHealth` resolves to.  The JS success shape has no
`error` field and the failure shape no `status` field; the `Option`s model
the absent fields. -/
structure HealthResult where
  healthy : Bool
  status : Option Nat
  error : Option Str
  component : Str
  url : Str
deriving DecidableEq

/-- `checkHealth` from `src/api/client.js`: the GET to `<baseUrl>/health` is
passed in as its outcome — a response, or the thrown error's message.  The
try/catch makes the function total: every outcome maps to a result. -/
def checkHealth (m : MidazApiConfig) (component : Str)
    (outcome : Except Str HttpResponse) : HealthResult :=
  let baseUrl := getComponentUrl m component
  match outcome with
  | .ok r =>
    { healthy := respOk r.status, status := some r.status, error := none,
      component := component, url := baseUrl }
  | .error msg =>
    { healthy := false, status := none, error := some msg,
      component := component, url := baseUrl }

/-- Modelled from the spec: the `ErrorCodes` taxonomy of
`src/util/mcp-helpers.js` (the helper module itself is missing from the
snapshot; §7 of the specification lists exactly these six codes). -/
inductive ECode where
  | INVALID_PARAMS
  | RESOURCE_NOT_FOUND
  | RESOURCE_ACCESS_DENIED
  | BACKEND_ERROR
  | RESOURCE_UNAVAILABLE
  | INTERNAL_ERROR
deriving DecidableEq

/-- A thrown JS error as the catch block of `handleExecute` observes it: the
HTTP fields `executeRequest` may have attached (`status = none` models a
plain error with no HTTP status), plus `name` and `message`.  `body` carries
`JSON.stringify(err.body)`. -/
structure ThrownErr where
  status : Option Nat
  statusText : Str
  url : Str
  body : Str
  name : Str
  message : Str
deriving DecidableEq

/-- The `errorDetail` object attached to HTTP-status classifications. -/
structure ErrDetail where
  status : Nat
  statusText : Str
  url : Str
  body : Str
deriving DecidableEq

/-- Modelled from the spec: a `createErrorResponse(code, message, detail?)`
value or a success payload at the tool boundary
(`{code, message, detail?}`, §7 of the specification). -/
inductive ToolResult where
  | success (payload : RespPayload)
  | errorResp (code : ECode) (message : Str) (detail : Option ErrDetail)
deriving DecidableEq

/-- The message surfaced for timeout-shaped failures. -/
def timeoutRemediation : Str :=
  str "Request timed out. Check if the Midaz service is running and MIDAZ_*_URL is configured correctly."

/-- The message surfaced for connection-refused / fetch-failed failures. -/
def connectRemediation : Str :=
  str "Cannot connect to Midaz API. Ensure the service is running and environment variables MIDAZ_ONBOARDING_URL, MIDAZ_TRANSACTION_URL, MIDAZ_CRM_URL, MIDAZ_LEDGER_URL are set correctly."

/-- The catch-block classification of `handleExecute` (execute tool module):
by HTTP status when present, else by failure shape. -/
def classifyExecErr (e : ThrownErr) : ToolResult :=
  match e.status with
  | some st =>
    let detail : Option ErrDetail := some
      { status := st, statusText := e.statusText, url := e.url, body := e.body }
    if st == 400 then
      .errorResp .INVALID_PARAMS (str "Bad request: " ++ e.body) detail
    else if st == 401 || st == 403 then
      .errorResp .RESOURCE_ACCESS_DENIED
        (str "Authentication/authorization error (" ++ natToStr st ++
          str "). Check MIDAZ_AUTH_TOKEN configuration.") detail
    else if st == 404 then
      .errorResp .RESOURCE_NOT_FOUND (str "Resource not found: " ++ e.url) detail
    else if st == 409 then
      .errorResp .BACKEND_ERROR (str "Conflict: " ++ e.body) detail
    else if 500 ≤ st then
      .errorResp .BACKEND_ERROR
        (str "Midaz server error (" ++ natToStr st ++ str "): " ++ e.body) detail
    else
      .errorResp .BACKEND_ERROR
        (str "API error (" ++ natToStr st ++ str "): " ++ e.message) detail
  | none =>
    if e.name == str "TimeoutError" || hasSub (str "timeout") e.message then
      .errorResp .BACKEND_ERROR timeoutRemediation none
    else if hasSub (str "fetch failed") e.message ||
        hasSub (str "ECONNREFUSED") e.message then
      .errorResp .RESOURCE_UNAVAILABLE connectRemediation none
    else .errorResp .INTERNAL_ERROR e.message none

/-- A plain `new Error(msg)` as thrown by `routeAndExecute`. -/
def plainErr (msg : Str) : ThrownErr :=
  { status := none, statusText := [], url := [], body := [],
    name := str "Error", message := msg }

/-- `handleExecute` from the execute tool module: the guard on a missing
resource/action, the dispatch through `routeAndExecute`, and the catch-block
classification.  `net` is the network: the outcome `executeRequest` produces
for the request that reaches it. -/
def handleExecute (rs : List ResourceSchema)
    (net : ApiRequest → Except ThrownErr RespPayload)
    (resource action : Str) (pathParams : List (Str × Str))
    (queryParams : List (Str × JsVal)) (body : Option Str) : ToolResult :=
  if resource.isEmpty || action.isEmpty then
    .errorResp .INVALID_PARAMS
      (str "Both resource and action are required. Use midaz-discover first to find available resources and actions.")
      none
  else
    match routeAndExecute rs resource action pathParams queryParams body with
    | .threw msg => classifyExecErr (plainErr msg)
    | .request req =>
      match net req with
      | .ok payload => .success payload
      | .error e => classifyExecErr e

/-- Token scanner for path templates: `inTok` means the scanner is inside a
`:token`; `cur` holds the current token's characters in reverse. -/
def tokensGo : Str → Str → Bool → List Str
  | [], cur, inTok => if inTok then [cur.reverse] else []
  | c :: cs, cur, true =>
    if c = '/' then cur.reverse :: tokensGo cs [] false
    else tokensGo cs (c :: cur) true
  | c :: cs, _, false =>
    if c = ':' then tokensGo cs [] true else tokensGo cs [] false

/-- The `:token` placeholders of a path template, in order: each `:` starts a
token that extends to the next `/`. -/
def pathTokens (s : Str) : List Str := tokensGo s [] false

/-- Boolean equality of two lists viewed as sets. -/
def sameSet (xs ys : List Str) : Bool :=
  xs.all (fun x => ys.contains x) && ys.all (fun y => xs.contains y)

/-- The HTTP verbs the registry is allowed to use. -/
def methodList : List Str :=
  [str "GET", str "POST", str "PUT", str "PATCH", str "DELETE", str "HEAD"]

/-- Registry-wide check behind C4: every action's method is a known verb and
its path tokens are exactly its declared path-parameter names. -/
def registryActionsOk : Bool :=
  allSchemas.all (fun s => s.actions.all (fun p =>
    methodList.contains p.2.method &&
    sameSet (pathTokens p.2.path) (p.2.pathParams.map Prod.fst)))

/-- The failure-shape patterns the catch block of `handleExecute` greps for
(`fetch` standing in for `fetch failed`, see `missingMsg_avoids` uses). -/
def shapePatterns : List Str := [str "timeout", str "fetch", str "ECONNREFUSED"]

def nameAvoidsPatterns (n : Str) : Bool :=
  shapePatterns.all (fun pat => !(hasSub pat n))

/-- Registry-wide check: resource and action names are nonempty, and no path
parameter name contains one of the failure-shape patterns. -/
def registryNamesOk : Bool :=
  allSchemas.all (fun s =>
    !s.resource.isEmpty &&
    s.actions.all (fun p => !p.1.isEmpty &&
      p.2.pathParams.all (fun q => nameAvoidsPatterns q.1)))

/-- Extract the error code of a tool result. -/
def resultCode : ToolResult → Option ECode
  | .errorResp c _ _ => some c
  | .success _ => none

/-- The timeout failure shape a Node `AbortSignal.timeout` abort produces. -/
def timeoutErr : ThrownErr :=
  { status := none, statusText := [], url := [], body := [],
    name := str "TimeoutError",
    message := str "The operation was aborted due to timeout" }

/-- The failure shape Node `fetch` produces for refused connections and DNS
failures alike: a `TypeError` whose message is `fetch failed`. -/
def fetchFailedErr : ThrownErr :=
  { status := none, statusText := [], url := [], body := [],
    name := str "TypeError", message := str "fetch failed" }

/-- A response with a non-2xx status, used in the C3 counterexample. -/
def head404 : HttpResponse :=
  { status := 404, statusText := str "Not Found", headers := [],
    jsonBody := [], textBody := [] }

/-- A HEAD count request, used in the C3 counterexample. -/
def headCountReq : ApiRequest :=
  { component := str "onboarding", method := str "HEAD",
    pathTemplate := str "/v1/organizations/metrics/count",
    pathParams := [], queryParams := [], body := none }

def demoConfig : MidazApiConfig :=
  { onboardingUrl := str "http://localhost:3000",
    transactionUrl := str "http://localhost:3001",
    crmUrl := str "http://localhost:3002",
    ledgerUrl := str "http://localhost:3003" }

def isFail : ExecOutcome → Bool
  | .fail _ => true
  | .ok _ => false

/-- A 500 JSON response, used in the C3 witness. -/
def get500 : HttpResponse :=
  { status := 500, statusText := str "Internal Server Error",
    headers := [(str "content-type", str "application/json")],
    jsonBody := str "server exploded", textBody := [] }

/-- A GET request, used in the C3 witness. -/
def orgListReq : ApiRequest :=
  { component := str "onboarding", method := str "GET",
    pathTemplate := str "/v1/organizations", pathParams := [],
    queryParams := [], body := none }

/-- The entries `buildQueryString` keeps: neither `undefined` nor `null`. -/
def qsKeep (p : Str × JsVal) : Bool :=
  match p.2 with
  | .undef => false
  | .nullv => false
  | _ => true

theorem isPre_refl_append (p t : Str) : isPre p (p ++ t) = true := by
  induction p with
  | nil => rfl
  | cons c cs ih => simp [isPre, ih]

theorem isPre_of_isPre_append {p q t : Str} (h : isPre (p ++ q) t = true) :
    isPre p t = true := by
  induction p generalizing t with
  | nil => rfl
  | cons c cs ih =>
    cases t with
    | nil => simp [isPre] at h
    | cons d ds =>
      simp only [List.cons_append, isPre, Bool.and_eq_true] at h ⊢
      exact ⟨h.1, ih h.2⟩

theorem hasSub_of_isPre {p t : Str} (h : isPre p t = true) : hasSub p t = true := by
  cases t with
  | nil => simpa [hasSub] using h
  | cons c cs => simp [hasSub, h]

theorem hasSub_of_hasSub_append_pat {p q t : Str} (h : hasSub (p ++ q) t = true) :
    hasSub p t = true := by
  induction t with
  | nil =>
    simp only [hasSub] at h
    exact hasSub_of_isPre (isPre_of_isPre_append h)
  | cons c cs ih =>
    simp only [hasSub, Bool.or_eq_true] at h ⊢
    rcases h with h | h
    · exact Or.inl (isPre_of_isPre_append h)
    · exact Or.inr (ih h)

theorem isPre_append_of_isPre {p s : Str} (t : Str) (h : isPre p s = true) :
    isPre p (s ++ t) = true := by
  induction p generalizing s with
  | nil => rfl
  | cons c cs ih =>
    cases s with
    | nil => simp [isPre] at h
    | cons d ds =>
      simp only [isPre, Bool.and_eq_true, List.cons_append] at h ⊢
      exact ⟨h.1, ih h.2⟩

theorem hasSub_append_right {p t : Str} (s : Str) (h : hasSub p t = true) :
    hasSub p (s ++ t) = true := by
  induction s with
  | nil => simpa using h
  | cons c cs ih => simp [hasSub, ih]

theorem hasSub_append_left {p s : Str} (t : Str) (h : hasSub p s = true) :
    hasSub p (s ++ t) = true := by
  induction s with
  | nil =>
    cases p with
    | nil => cases t with | nil => exact h | cons d ds => simp [hasSub, isPre]
    | cons q qs => simp [hasSub, isPre] at h
  | cons c cs ih =>
    simp only [hasSub, Bool.or_eq_true, List.cons_append] at h ⊢
    rcases h with h | h
    · exact Or.inl (isPre_append_of_isPre _ h)
    · exact Or.inr (ih h)

/-- A pattern that avoids the character `c` and is a prefix of `s ++ c :: t`
cannot reach past `s`: it is already a prefix of `s`. -/
theorem isPre_confined {pat : Str} (c : Char) {s t : Str}
    (hc : pat.all (fun d => d ≠ c) = true)
    (h : isPre pat (s ++ c :: t) = true) : isPre pat s = true := by
  induction pat generalizing s with
  | nil => rfl
  | cons p ps ih =>
    cases s with
    | nil =>
      simp only [List.nil_append, isPre, Bool.and_eq_true, decide_eq_true_eq] at h
      simp only [List.all_cons, Bool.and_eq_true, decide_eq_true_eq] at hc
      exact absurd h.1 hc.1
    | cons a s' =>
      simp only [List.all_cons, Bool.and_eq_true] at hc
      simp only [List.cons_append, isPre, Bool.and_eq_true] at h ⊢
      exact ⟨h.1, ih hc.2 h.2⟩

/-- An occurrence of a pattern avoiding `c` inside `s ++ c :: t` lies entirely
inside `s` or entirely inside `t`. -/
theorem hasSub_split {pat : Str} (c : Char) {s t : Str}
    (hc : pat.all (fun d => d ≠ c) = true)
    (h : hasSub pat (s ++ c :: t) = true) :
    hasSub pat s = true ∨ hasSub pat t = true := by
  induction s with
  | nil =>
    simp only [List.nil_append, hasSub, Bool.or_eq_true] at h
    rcases h with h | h
    · have : isPre pat [] = true := isPre_confined c (s := []) (t := t) hc h
      exact Or.inl (hasSub_of_isPre this)
    · exact Or.inr h
  | cons a s' ih =>
    simp only [List.cons_append, hasSub, Bool.or_eq_true] at h
    rcases h with h | h
    · have : isPre pat (a :: s') = true :=
        isPre_confined c (s := a :: s') (t := t) hc (by simpa using h)
      exact Or.inl (by simp [hasSub, this])
    · rcases ih h with h' | h'
      · exact Or.inl (by simp [hasSub, h'])
      · exact Or.inr h'

theorem dropLenAppend (p q : Str) : (p ++ q).drop p.length = q := by
  induction p with
  | nil => rfl
  | cons c cs ih => simp [ih]

/-- A pattern that does not occur in `s` is not replaced: `replaceFirst` is the
identity there. -/
theorem replaceFirst_of_not_hasSub {pat s : Str} (rep : Str)
    (h : hasSub pat s = false) : replaceFirst pat rep s = s := by
  induction s with
  | nil =>
    cases pat with
    | nil => simp [hasSub, isPre] at h
    | cons p ps => simp [replaceFirst]
  | cons c cs ih =>
    simp only [hasSub, Bool.or_eq_false_iff] at h
    simp [replaceFirst, h.1, ih h.2]

/-- Replacing the token `:k` in a template whose part before the token contains
no colon substitutes exactly that first occurrence. -/
theorem replaceFirst_token {pre : Str} (k rep post : Str)
    (hpre : pre.all (fun d => d ≠ ':') = true) :
    replaceFirst (':' :: k) rep (pre ++ ':' :: k ++ post) = pre ++ rep ++ post := by
  induction pre with
  | nil =>
    have h1 : isPre (':' :: k) (':' :: (k ++ post)) = true := by
      have h := isPre_refl_append (':' :: k) post
      simpa using h
    have h2 := dropLenAppend (':' :: k) post
    simp only [List.cons_append] at h2
    show replaceFirst (':' :: k) rep (':' :: (k ++ post)) = rep ++ post
    simp only [replaceFirst, h1, if_true, h2]
  | cons a pre' ih =>
    simp only [List.all_cons, Bool.and_eq_true, decide_eq_true_eq] at hpre
    have hne : isPre (':' :: k) (a :: (pre' ++ ':' :: (k ++ post))) = false := by
      simp [isPre, Ne.symm hpre.1]
    simp only [List.cons_append]
    simp only [replaceFirst]
    rw [if_neg (by simp [hne])]
    have h3 := ih hpre.2
    simp only [List.append_assoc] at h3 ⊢
    exact congrArg (a :: ·) h3

theorem foldl_subst_of_not_hasSub {t : Str} {ps : List (Str × Str)}
    (h : ∀ p ∈ ps, hasSub (':' :: p.1) t = false) :
    ps.foldl (fun acc kv => replaceFirst (':' :: kv.1) (encodeURIComponent kv.2) acc) t
      = t := by
  induction ps with
  | nil => rfl
  | cons p ps ih =>
    simp only [List.foldl_cons]
    rw [replaceFirst_of_not_hasSub _ (h p (by simp))]
    exact ih (fun q hq => h q (by simp [hq]))

theorem hasSub_nil_eq {pat : Str} (h : hasSub pat [] = true) : pat = [] := by
  cases pat with
  | nil => rfl
  | cons p ps => simp [hasSub, isPre] at h

theorem str_comma_space : str ", " = [',', ' '] := rfl

theorem mem_hasSub_joinSep {n : Str} {names : List Str} (sep : Str) (h : n ∈ names) :
    hasSub n (joinSep sep names) = true := by
  induction names with
  | nil => simp at h
  | cons x xs ih =>
    rcases List.mem_cons.mp h with rfl | hmem
    · cases xs with
      | nil =>
        have h1 := isPre_refl_append n []
        simp only [List.append_nil] at h1
        exact hasSub_of_isPre h1
      | cons y ys =>
        have hj : joinSep sep (n :: y :: ys) = n ++ (sep ++ joinSep sep (y :: ys)) := by
          simp [joinSep]
        rw [hj]
        exact hasSub_of_isPre (isPre_refl_append n _)
    · cases xs with
      | nil => simp at hmem
      | cons y ys =>
        have hj : joinSep sep (x :: y :: ys) = x ++ (sep ++ joinSep sep (y :: ys)) := by
          simp [joinSep]
        rw [hj]
        exact hasSub_append_right x (hasSub_append_right sep (ih hmem))

/-- An occurrence of a comma-free, space-free pattern inside a `", "`-joined
list lies inside one of the joined elements (or the pattern is empty). -/
theorem hasSub_joinSep_comma {pat : Str} {names : List Str}
    (hsp : pat.all (fun d => d ≠ ' ') = true)
    (hcm : pat.all (fun d => d ≠ ',') = true)
    (h : hasSub pat (joinSep (str ", ") names) = true) :
    pat = [] ∨ ∃ n ∈ names, hasSub pat n = true := by
  induction names with
  | nil => exact Or.inl (hasSub_nil_eq h)
  | cons x xs ih =>
    cases xs with
    | nil => exact Or.inr ⟨x, by simp, h⟩
    | cons y ys =>
      have h0 : hasSub pat (x ++ ',' :: (' ' :: joinSep (str ", ") (y :: ys))) = true := by
        simpa [joinSep, str_comma_space] using h
      rcases hasSub_split ',' hcm h0 with h1 | h1
      · exact Or.inr ⟨x, by simp, h1⟩
      · rcases hasSub_split ' ' hsp (s := []) (by simpa using h1) with h2 | h2
        · exact Or.inl (hasSub_nil_eq h2)
        · rcases ih h2 with h3 | ⟨n, hn, h4⟩
          · exact Or.inl h3
          · exact Or.inr ⟨n, by simp [hn], h4⟩

theorem registryActionsOk_eq : registryActionsOk = true := by decide

theorem registryNamesOk_eq : registryNamesOk = true := by decide

/-- A successful `resolveAction` lookup comes from a registry entry, and the
descriptor copies that entry's fields. -/
theorem resolveAction_ok_shape {rs : List ResourceSchema} {r a : Str} {d : Descriptor}
    (h : resolveAction rs r a = .ok d) :
    ∃ s ∈ rs, s.resource = r ∧ ∃ p ∈ s.actions, p.1 = a ∧
      d.resource = r ∧ d.action = a ∧ d.component = s.component ∧
      d.method = p.2.method ∧ d.pathTemplate = p.2.path ∧
      d.pathParams = p.2.pathParams := by
  cases hg : getSchema rs r with
  | none => simp [resolveAction, hg] at h
  | some s =>
    cases hl : lookupAction s.actions a with
    | none => simp [resolveAction, hg, hl] at h
    | some ad =>
      simp only [resolveAction, hg, hl, Resolved.ok.injEq] at h
      have hg2 : rs.find? (fun t => t.resource == r) = some s := hg
      have hmem : s ∈ rs := List.mem_of_find?_eq_some hg2
      have hbr := List.find?_some hg2
      have hres : s.resource = r := eq_of_beq (by simpa using hbr)
      have hl2 : (s.actions.find? (fun p => p.1 == a)).map (fun p => p.2) = some ad := hl
      rcases Option.map_eq_some'.mp hl2 with ⟨p, hfind, hp2⟩
      have hpmem : p ∈ s.actions := List.mem_of_find?_eq_some hfind
      have hba := List.find?_some hfind
      have hpa : p.1 = a := eq_of_beq (by simpa using hba)
      refine ⟨s, hmem, hres, p, hpmem, hpa, ?_⟩
      rw [← h, ← hp2]
      simp

theorem contains_iff_mem {xs : List Str} {x : Str} : xs.contains x = true ↔ x ∈ xs := by
  simp [List.contains]

theorem sameSet_mem_iff {xs ys : List Str} (h : sameSet xs ys = true) (t : Str) :
    t ∈ xs ↔ t ∈ ys := by
  simp only [sameSet, Bool.and_eq_true, List.all_eq_true] at h
  constructor
  · intro ht
    exact contains_iff_mem.mp (h.1 t ht)
  · intro ht
    exact contains_iff_mem.mp (h.2 t ht)

/-- Unpacked form of `registryActionsOk`. -/
theorem regActions_spec {s : ResourceSchema} (hs : s ∈ allSchemas)
    {p : Str × ActionDef} (hp : p ∈ s.actions) :
    methodList.contains p.2.method = true ∧
    sameSet (pathTokens p.2.path) (p.2.pathParams.map Prod.fst) = true := by
  have h := registryActionsOk_eq
  simp only [registryActionsOk, List.all_eq_true] at h
  have h2 := h s hs p hp
  simpa [Bool.and_eq_true] using h2

/-- Unpacked form of `registryNamesOk`. -/
theorem regNames_spec {s : ResourceSchema} (hs : s ∈ allSchemas) :
    s.resource.isEmpty = false ∧
    ∀ p ∈ s.actions, p.1.isEmpty = false ∧
      ∀ q ∈ p.2.pathParams, nameAvoidsPatterns q.1 = true := by
  have h := registryNamesOk_eq
  simp only [registryNamesOk, List.all_eq_true] at h
  have h2 := h s hs
  simp only [Bool.and_eq_true, Bool.not_eq_true', List.all_eq_true] at h2
  refine ⟨h2.1, fun p hp => ?_⟩
  have h3 := h2.2 p hp
  simp only [Bool.and_eq_true, Bool.not_eq_true', List.all_eq_true] at h3
  exact h3

/-- The missing-parameter names are drawn from the declared parameter names. -/
theorem missingRequired_sublist (declared : List (Str × Bool))
    (supplied : List (Str × Str)) :
    List.Sublist (missingRequired declared supplied) (declared.map Prod.fst) := by
  unfold missingRequired
  exact (List.filter_sublist declared).map Prod.fst

/-- Every collected missing name occurs verbatim in the batched message. -/
theorem mem_hasSub_missingMsg {n : Str} {names : List Str} (h : n ∈ names) :
    hasSub n (missingMsg names) = true := by
  unfold missingMsg
  exact hasSub_append_right _ (mem_hasSub_joinSep _ h)

/-- The batched message contains none of the patterns the classifier greps
for, provided no collected name does (the patterns avoid spaces and commas,
so they cannot straddle the fixed text and the joined names). -/
theorem missingMsg_avoids {names : List Str} {pat : Str}
    (hsp : pat.all (fun d => d ≠ ' ') = true)
    (hcm : pat.all (fun d => d ≠ ',') = true)
    (hpre : hasSub pat (str "Missing required path parameters:") = false)
    (hne : pat ≠ [])
    (hnames : ∀ n ∈ names, hasSub pat n = false) :
    hasSub pat (missingMsg names) = false := by
  cases hx : hasSub pat (missingMsg names) with
  | false => rfl
  | true =>
    exfalso
    have hmsg : missingMsg names
        = str "Missing required path parameters:" ++
            ' ' :: joinSep (str ", ") names := by
      unfold missingMsg
      rfl
    rw [hmsg] at hx
    rcases hasSub_split ' ' hsp hx with h1 | h1
    · rw [hpre] at h1
      exact absurd h1 (by simp)
    · rcases hasSub_joinSep_comma hsp hcm h1 with h2 | ⟨n, hn, h3⟩
      · exact hne h2
      · rw [hnames n hn] at h3
        exact absurd h3 (by simp)

/-- In a registered action, every collected missing parameter name avoids the
failure-shape patterns. -/
theorem missing_names_avoid {r a : Str} {d : Descriptor}
    (h : resolveAction allSchemas r a = .ok d)
    (supplied : List (Str × Str)) :
    ∀ n ∈ missingRequired d.pathParams supplied, nameAvoidsPatterns n = true := by
  intro n hn
  rcases resolveAction_ok_shape h with ⟨s, hs, _, p, hp, _, _, _, _, _, _, hdp⟩
  have hsub := missingRequired_sublist d.pathParams supplied
  have hmem : n ∈ d.pathParams.map Prod.fst := hsub.mem hn
  rw [hdp] at hmem
  rcases List.mem_map.mp hmem with ⟨q, hq, hq1⟩
  rw [← hq1]
  exact (((regNames_spec hs).2 p hp).2) q hq

theorem nameAvoids_unpack {n : Str} (h : nameAvoidsPatterns n = true) :
    hasSub (str "timeout") n = false ∧ hasSub (str "fetch") n = false ∧
    hasSub (str "ECONNREFUSED") n = false := by
  simp only [nameAvoidsPatterns, shapePatterns, List.all_cons, List.all_nil,
    Bool.and_eq_true, Bool.not_eq_true', and_true] at h
  exact h

/-- The batched missing-parameter message of a registered action never
matches the classifier's timeout / fetch-failed / connection-refused greps. -/
theorem missingMsg_shape_free {r a : Str} {d : Descriptor}
    (h : resolveAction allSchemas r a = .ok d)
    (supplied : List (Str × Str)) :
    hasSub (str "timeout") (missingMsg (missingRequired d.pathParams supplied)) = false ∧
    hasSub (str "fetch failed") (missingMsg (missingRequired d.pathParams supplied)) = false ∧
    hasSub (str "ECONNREFUSED") (missingMsg (missingRequired d.pathParams supplied)) = false := by
  have havoid := missing_names_avoid h supplied
  refine ⟨?_, ?_, ?_⟩
  · exact missingMsg_avoids (by decide) (by decide) (by decide) (by decide)
      (fun n hn => (nameAvoids_unpack (havoid n hn)).1)
  · have hfetch : hasSub (str "fetch")
        (missingMsg (missingRequired d.pathParams supplied)) = false :=
      missingMsg_avoids (by decide) (by decide) (by decide) (by decide)
        (fun n hn => (nameAvoids_unpack (havoid n hn)).2.1)
    cases hx : hasSub (str "fetch failed")
        (missingMsg (missingRequired d.pathParams supplied)) with
    | false => rfl
    | true =>
      exfalso
      have hsplitpat : str "fetch failed" = str "fetch" ++ str " failed" := rfl
      rw [hsplitpat] at hx
      have := hasSub_of_hasSub_append_pat hx
      rw [hfetch] at this
      exact absurd this (by simp)
  · exact missingMsg_avoids (by decide) (by decide) (by decide) (by decide)
      (fun n hn => (nameAvoids_unpack (havoid n hn)).2.2)

/-- A resolvable (resource, action) pair has nonempty names. -/
theorem resolveAction_ok_nonempty {r a : Str} {d : Descriptor}
    (h : resolveAction allSchemas r a = .ok d) :
    r.isEmpty = false ∧ a.isEmpty = false := by
  rcases resolveAction_ok_shape h with ⟨s, hs, hres, p, hp, hpa, _⟩
  constructor
  · rw [← hres]
    exact (regNames_spec hs).1
  · rw [← hpa]
    exact ((regNames_spec hs).2 p hp).1

/-- With required parameters missing, `routeAndExecute` throws the batched
message. -/
theorem routeAndExecute_missing {r a : Str} {d : Descriptor}
    (h : resolveAction allSchemas r a = .ok d)
    (pσ : List (Str × Str)) (qσ : List (Str × JsVal)) (b : Option Str)
    (hm : missingRequired d.pathParams pσ ≠ []) :
    routeAndExecute allSchemas r a pσ qσ b
      = .threw (missingMsg (missingRequired d.pathParams pσ)) := by
  unfold routeAndExecute
  rw [h]
  have hemp : (missingRequired d.pathParams pσ).isEmpty = false := by
    cases hmm : missingRequired d.pathParams pσ with
    | nil => exact absurd hmm hm
    | cons x xs => rfl
  simp [hemp]

/-- C1: calling execute (the tool handler, through `routeAndExecute`) for a
registered action with a required path parameter omitted or empty throws one
batched error before any network call is made; the handler surfaces it with
code INTERNAL_ERROR — not INVALID_PARAMS, see the counterexample — and the
message names every missing required parameter. -/
theorem execute_missing_params :
    ∀ (net : ApiRequest → Except ThrownErr RespPayload) (r a : Str)
      (pσ : List (Str × Str)) (qσ : List (Str × JsVal)) (b : Option Str)
      (d : Descriptor),
      resolveAction allSchemas r a = .ok d →
      missingRequired d.pathParams pσ ≠ [] →
      routeAndExecute allSchemas r a pσ qσ b
          = .threw (missingMsg (missingRequired d.pathParams pσ)) ∧
      (∀ req, routeAndExecute allSchemas r a pσ qσ b ≠ .request req) ∧
      handleExecute allSchemas net r a pσ qσ b
        = .errorResp .INTERNAL_ERROR
            (missingMsg (missingRequired d.pathParams pσ)) none ∧
      ∀ n ∈ missingRequired d.pathParams pσ,
        hasSub n (missingMsg (missingRequired d.pathParams pσ)) = true := by
  intro net r a pσ qσ b d h hm
  have hroute := routeAndExecute_missing h pσ qσ b hm
  have hnonempty := resolveAction_ok_nonempty h
  refine ⟨hroute, ?_, ?_, ?_⟩
  · intro req hreq
    rw [hroute] at hreq
    exact absurd hreq (by simp)
  · rcases missingMsg_shape_free h pσ with ⟨ht, hf, he⟩
    have hname : (str "Error" == str "TimeoutError") = false := by decide
    simp [handleExecute, hnonempty.1, hnonempty.2, hroute, classifyExecErr,
      plainErr, hname, ht, hf, he]
  · intro n hn
    exact mem_hasSub_missingMsg hn

/-- C1 counterexample: executing `organizations.get` with `pathParams = {}`
surfaces INTERNAL_ERROR, not the INVALID_PARAMS the claim states. -/
theorem execute_missing_params_counterexample :
    resultCode (handleExecute allSchemas (fun _ => Except.ok RespPayload.deleted)
        (str "organizations") (str "get") [] [] none)
      = some ECode.INTERNAL_ERROR ∧
    some ECode.INTERNAL_ERROR ≠ some ECode.INVALID_PARAMS := by
  constructor
  · decide
  · decide

/-- C1 witness: `organizations.get` with no path parameters. -/
theorem execute_missing_params_witness :
    handleExecute allSchemas (fun _ => Except.ok RespPayload.deleted)
        (str "organizations") (str "get") [] [] none
      = .errorResp .INTERNAL_ERROR (str "Missing required path parameters: id") none := by
  have h := execute_missing_params (fun _ => Except.ok RespPayload.deleted)
    (str "organizations") (str "get") [] [] none
    { resource := str "organizations", action := str "get",
      component := str "onboarding", method := str "GET",
      pathTemplate := str "/v1/organizations/:id", pathParams := pId }
    (by decide) (by decide)
  rw [h.2.2.1]
  decide

/-- `routeAndExecute` only reaches `executeRequest` after a successful
resolution. -/
theorem routeAndExecute_request_resolved {rs : List ResourceSchema}
    {r a : Str} {pσ : List (Str × Str)} {qσ : List (Str × JsVal)}
    {b : Option Str} {req : ApiRequest}
    (h : routeAndExecute rs r a pσ qσ b = .request req) :
    ∃ d, resolveAction rs r a = .ok d := by
  cases hr : resolveAction rs r a with
  | error m =>
    unfold routeAndExecute at h
    rw [hr] at h
    simp at h
  | ok d => exact ⟨d, rfl⟩

/-- C2 (amended): absent an HTTP status, the execute tool handler classifies
timeout-shaped failures as BACKEND_ERROR — not RESOURCE_UNAVAILABLE as the
claim states, see the counterexample — while fetch-failed / connection-refused
shapes (which is how DNS failures and refused connections surface) get
RESOURCE_UNAVAILABLE; both remediation messages name the backend environment
variables. -/
theorem execute_statusless_failure_classification :
    (∀ e : ThrownErr, e.status = none →
      ((e.name = str "TimeoutError" ∨ hasSub (str "timeout") e.message = true) →
        classifyExecErr e = .errorResp .BACKEND_ERROR timeoutRemediation none) ∧
      ((e.name ≠ str "TimeoutError" ∧ hasSub (str "timeout") e.message = false ∧
          (hasSub (str "fetch failed") e.message = true ∨
           hasSub (str "ECONNREFUSED") e.message = true)) →
        classifyExecErr e = .errorResp .RESOURCE_UNAVAILABLE connectRemediation none)) ∧
    (∀ (net : ApiRequest → Except ThrownErr RespPayload) (r a : Str)
       (pσ : List (Str × Str)) (qσ : List (Str × JsVal)) (b : Option Str)
       (req : ApiRequest) (e : ThrownErr),
       routeAndExecute allSchemas r a pσ qσ b = .request req →
       net req = .error e →
       handleExecute allSchemas net r a pσ qσ b = classifyExecErr e) ∧
    hasSub (str "MIDAZ_") timeoutRemediation = true ∧
    hasSub (str "MIDAZ_ONBOARDING_URL") connectRemediation = true ∧
    hasSub (str "MIDAZ_TRANSACTION_URL") connectRemediation = true ∧
    hasSub (str "MIDAZ_CRM_URL") connectRemediation = true ∧
    hasSub (str "MIDAZ_LEDGER_URL") connectRemediation = true := by
  refine ⟨?_, ?_, by decide, by decide, by decide, by decide, by decide⟩
  · intro e hst
    constructor
    · intro hshape
      rcases hshape with hn | hmsg
      · have hb : (e.name == str "TimeoutError") = true := by
          rw [hn]
          decide
        simp [classifyExecErr, hst, hb]
      · simp [classifyExecErr, hst, hmsg]
    · rintro ⟨hn, hmsg, hconn⟩
      have hb : (e.name == str "TimeoutError") = false := by
        simpa using hn
      rcases hconn with hc | hc
      · simp [classifyExecErr, hst, hb, hmsg, hc]
      · simp [classifyExecErr, hst, hb, hmsg, hc]
  · intro net r a pσ qσ b req e hroute hnet
    rcases routeAndExecute_request_resolved hroute with ⟨d, hd⟩
    have hne := resolveAction_ok_nonempty hd
    simp [handleExecute, hne.1, hne.2, hroute, hnet]

/-- C2 counterexample: a timeout during `organizations.list` surfaces as
BACKEND_ERROR, not the RESOURCE_UNAVAILABLE the claim states. -/
theorem execute_timeout_counterexample :
    resultCode (handleExecute allSchemas (fun _ => Except.error timeoutErr)
        (str "organizations") (str "list") [] [] none)
      = some ECode.BACKEND_ERROR ∧
    some ECode.BACKEND_ERROR ≠ some ECode.RESOURCE_UNAVAILABLE := by
  constructor
  · decide
  · decide

/-- C2 witness: the classification applied to a concrete fetch-failed error
(DNS failure / connection refused) and to a concrete timeout. -/
theorem execute_statusless_failure_classification_witness :
    classifyExecErr fetchFailedErr
      = .errorResp .RESOURCE_UNAVAILABLE connectRemediation none ∧
    classifyExecErr timeoutErr
      = .errorResp .BACKEND_ERROR timeoutRemediation none :=
  ⟨(execute_statusless_failure_classification.1 fetchFailedErr rfl).2
      ⟨by decide, by decide, Or.inl (by decide)⟩,
    (execute_statusless_failure_classification.1 timeoutErr rfl).1
      (Or.inl rfl)⟩

/-- C3 (amended): for every non-HEAD request, a non-2xx response makes
`executeRequest` raise the structured failure carrying status, statusText,
parsed-or-raw body, and the resolved URL; it never returns a success payload
there.  (HEAD is the exception, see the counterexample.) -/
theorem executeRequest_non2xx_fails :
    ∀ (m : MidazApiConfig) (req : ApiRequest) (r : HttpResponse),
      toUpperStr req.method ≠ str "HEAD" →
      respOk r.status = false →
      executeRequest m req r = .fail
        { status := r.status, statusText := r.statusText,
          body := if hasSub (str "application/json")
              (match headersGet r.headers (str "content-type") with
               | some v => v
               | none => []) = true then BodyV.json r.jsonBody
            else BodyV.text r.textBody,
          url := resolveUrl m req,
          message := str "Midaz API error: " ++ natToStr r.status ++
            ' ' :: r.statusText } := by
  intro m req r hm hok
  have hhead : (toUpperStr req.method == str "HEAD") = false := by
    simpa using hm
  have h204 : (r.status == 204) = false := by
    cases h2 : r.status == 204 with
    | false => rfl
    | true =>
      have h3 : r.status = 204 := by simpa using h2
      rw [h3] at hok
      exact absurd hok (by decide)
  simp [executeRequest, interpretResponse, hhead, h204, hok]

/-- C3 counterexample: a HEAD request answered 404 (non-2xx) returns the
HEAD success payload instead of raising a structured failure. -/
theorem executeRequest_head_counterexample :
    respOk head404.status = false ∧
    isFail (executeRequest demoConfig headCountReq head404) = false ∧
    executeRequest demoConfig headCountReq head404
      = .ok (.headResult 404 [] none) := by
  refine ⟨by decide, by decide, by decide⟩

/-- C3 witness: the amended theorem at a concrete GET answered 500. -/
theorem executeRequest_non2xx_fails_witness :
    executeRequest demoConfig orgListReq get500
      = .fail
          { status := 500, statusText := str "Internal Server Error",
            body := BodyV.json (str "server exploded"),
            url := resolveUrl demoConfig orgListReq,
            message := str "Midaz API error: " ++ natToStr 500 ++
              ' ' :: str "Internal Server Error" } := by
  have h := executeRequest_non2xx_fails demoConfig orgListReq get500
    (by decide) (by decide)
  rw [h]
  decide

/-- C4: every registered (resource, action) pair resolves to a descriptor
whose method is one of the six known verbs and whose path-template tokens
are exactly its pathParams keys (empty when the schema declares none). -/
theorem resolveAction_descriptor_invariant :
    ∀ (r a : Str) (d : Descriptor), resolveAction allSchemas r a = .ok d →
      d.method ∈ methodList ∧
      ∀ t : Str, t ∈ pathTokens d.pathTemplate ↔ t ∈ d.pathParams.map Prod.fst := by
  intro r a d h
  rcases resolveAction_ok_shape h with ⟨s, hs, _, p, hp, _, _, _, _, hm, hpath, hpp⟩
  rcases regActions_spec hs hp with ⟨hmeth, hset⟩
  constructor
  · rw [hm]
    exact contains_iff_mem.mp hmeth
  · intro t
    rw [hpath, hpp]
    exact sameSet_mem_iff hset t

/-- C4 witness: the invariant at `organizations.get`. -/
theorem resolveAction_descriptor_invariant_witness :
    (str "GET") ∈ methodList ∧
    ((str "id") ∈ pathTokens (str "/v1/organizations/:id") ↔
      (str "id") ∈ pId.map Prod.fst) := by
  have h := resolveAction_descriptor_invariant (str "organizations") (str "get")
    { resource := str "organizations", action := str "get",
      component := str "onboarding", method := str "GET",
      pathTemplate := str "/v1/organizations/:id", pathParams := pId }
    (by decide)
  exact ⟨h.1, h.2 (str "id")⟩

/-- C7: `resolveAction` is total (it returns an error object, never throws);
an unknown resource yields the message referencing discovery, and a known
resource with an unknown action yields the message enumerating exactly the
resource's available action names. -/
theorem resolveAction_total_errors :
    (∀ r a : Str, (∃ msg, resolveAction allSchemas r a = .error msg) ∨
       ∃ d, resolveAction allSchemas r a = .ok d) ∧
    (∀ r a : Str, getSchema allSchemas r = none →
      resolveAction allSchemas r a = .error (unknownResourceMsg r) ∧
      hasSub (str "midaz-discover") (unknownResourceMsg r) = true) ∧
    (∀ (r a : Str) (s : ResourceSchema), getSchema allSchemas r = some s →
      lookupAction s.actions a = none →
      resolveAction allSchemas r a
        = .error (unknownActionMsg r a
            (joinSep (str ", ") (s.actions.map (fun p => p.1))))) := by
  refine ⟨?_, ?_, ?_⟩
  · intro r a
    cases h : resolveAction allSchemas r a with
    | error m => exact Or.inl ⟨m, rfl⟩
    | ok d => exact Or.inr ⟨d, rfl⟩
  · intro r a hg
    refine ⟨by simp [resolveAction, hg], ?_⟩
    have hB : hasSub (str "midaz-discover")
        (str "\". Use midaz-discover to list available resources.") = true := by
      decide
    exact hasSub_append_right _ hB
  · intro r a s hg hl
    simp [resolveAction, hg, hl]

/-- C7 witness: an unknown resource and an unknown action of a known
resource. -/
theorem resolveAction_total_errors_witness :
    resolveAction allSchemas (str "bogus-resource") (str "get")
        = .error (unknownResourceMsg (str "bogus-resource")) ∧
    hasSub (str "midaz-discover") (unknownResourceMsg (str "bogus-resource")) = true ∧
    resolveAction allSchemas (str "organizations") (str "bogus")
      = .error (unknownActionMsg (str "organizations") (str "bogus")
          (joinSep (str ", ") (organizationsSchema.actions.map (fun p => p.1)))) := by
  have h2 := resolveAction_total_errors.2.1 (str "bogus-resource") (str "get")
    (by decide)
  have h3 := resolveAction_total_errors.2.2 (str "organizations") (str "bogus")
    organizationsSchema (by decide) (by decide)
  exact ⟨h2.1, h2.2, h3⟩

/-- C8: `checkHealth` never throws — every fetch outcome maps to a result of
the documented success or failure shape, with `healthy` true exactly for a
2xx status. -/
theorem checkHealth_never_throws :
    ∀ (m : MidazApiConfig) (component : Str) (outcome : Except Str HttpResponse),
      (∀ r, outcome = .ok r →
        checkHealth m component outcome =
          { healthy := respOk r.status, status := some r.status, error := none,
            component := component, url := getComponentUrl m component } ∧
        (respOk r.status = true ↔ 200 ≤ r.status ∧ r.status ≤ 299)) ∧
      (∀ e, outcome = .error e →
        checkHealth m component outcome =
          { healthy := false, status := none, error := some e,
            component := component, url := getComponentUrl m component }) := by
  intro m component outcome
  constructor
  · intro r hr
    subst hr
    exact ⟨rfl, by simp [respOk]⟩
  · intro e he
    subst he
    rfl

/-- C8 witness: an unreachable host (thrown fetch error) resolves to the
failure shape; a 200 response resolves healthy. -/
theorem checkHealth_never_throws_witness :
    checkHealth demoConfig (str "transaction") (.error (str "fetch failed"))
      = { healthy := false, status := none, error := some (str "fetch failed"),
          component := str "transaction",
          url := getComponentUrl demoConfig (str "transaction") } ∧
    checkHealth demoConfig (str "ledger")
        (.ok { status := 200, statusText := str "OK", headers := [],
               jsonBody := [], textBody := [] })
      = { healthy := true, status := some 200, error := none,
          component := str "ledger",
          url := getComponentUrl demoConfig (str "ledger") } := by
  have h1 := (checkHealth_never_throws demoConfig (str "transaction")
      (.error (str "fetch failed"))).2 (str "fetch failed") rfl
  have h2 := (checkHealth_never_throws demoConfig (str "ledger")
      (.ok { status := 200, statusText := str "OK", headers := [],
             jsonBody := [], textBody := [] })).1
    { status := 200, statusText := str "OK", headers := [],
      jsonBody := [], textBody := [] } rfl
  exact ⟨h1, h2.1⟩

theorem foldl_add_actions (rs : List ResourceSchema) (n : Nat) :
    rs.foldl (fun count schema => count + schema.actions.length) n
      = n + (rs.map (fun s => s.actions.length)).sum := by
  induction rs generalizing n with
  | nil => simp
  | cons s ss ih => simp [List.foldl_cons, ih, Nat.add_assoc]

/-- C9: `getEndpointCount` equals the sum of per-resource action counts, and
the list-resources discovery summary reports exactly that value. -/
theorem endpoint_count_correct :
    getEndpointCount allSchemas
        = ((getAllSchemas allSchemas).map (fun s => s.actions.length)).sum ∧
    (discoverListResources allSchemas).totalEndpoints
        = getEndpointCount allSchemas := by
  constructor
  · unfold getEndpointCount getAllSchemas
    simpa using foldl_add_actions allSchemas 0
  · rfl

/-- C5: `buildUrl` substitutes each supplied parameter's percent-encoded value
for its `:key` token and leaves tokens with no supplied value literally in
the template; concrete example included. -/
theorem buildUrl_substitution :
    (∀ base t : Str, buildUrl base t [] = base ++ t) ∧
    (∀ (base t : Str) (ps : List (Str × Str)),
       (∀ p ∈ ps, hasSub (':' :: p.1) t = false) → buildUrl base t ps = base ++ t) ∧
    (∀ base k v pre post : Str, pre.all (fun d => d ≠ ':') = true →
       buildUrl base (pre ++ ':' :: k ++ post) [(k, v)]
         = base ++ (pre ++ encodeURIComponent v ++ post)) ∧
    buildUrl (str "https://api.x") (str "/v1/organizations/:id")
        [(str "id", str "ab cd")]
      = str "https://api.x/v1/organizations/ab%20cd" := by
  refine ⟨?_, ?_, ?_, by decide⟩
  · intro base t
    rfl
  · intro base t ps h
    unfold buildUrl
    rw [foldl_subst_of_not_hasSub h]
  · intro base k v pre post hpre
    unfold buildUrl
    simp only [List.foldl_cons, List.foldl_nil]
    rw [replaceFirst_token _ _ _ hpre]

/-- C5 witness: the substitution clause at a concrete colon-free template. -/
theorem buildUrl_substitution_witness :
    buildUrl (str "x") (str "/a/" ++ ':' :: str "id" ++ str "/b")
        [(str "id", str "v")]
      = str "x" ++ (str "/a/" ++ encodeURIComponent (str "v") ++ str "/b") :=
  buildUrl_substitution.2.2.1 (str "x") (str "id") (str "v") (str "/a/")
    (str "/b") (by decide)

/-- C10: only the first occurrence of a `:key` token is replaced; every later
occurrence stays literal in the returned URL. -/
theorem buildUrl_first_occurrence_only :
    (∀ base k v pre mid post : Str, pre.all (fun d => d ≠ ':') = true →
       buildUrl base (pre ++ ':' :: k ++ (mid ++ ':' :: k ++ post)) [(k, v)]
         = base ++ (pre ++ encodeURIComponent v ++ (mid ++ ':' :: k ++ post))) ∧
    buildUrl (str "https://api.x") (str "/v1/items/:id/sub/:id")
        [(str "id", str "X")]
      = str "https://api.x/v1/items/X/sub/:id" := by
  refine ⟨?_, by decide⟩
  intro base k v pre mid post hpre
  unfold buildUrl
  simp only [List.foldl_cons, List.foldl_nil]
  rw [replaceFirst_token _ _ _ hpre]

/-- C10 witness: the first-occurrence clause at a concrete repeated token. -/
theorem buildUrl_first_occurrence_only_witness :
    buildUrl (str "b") (str "/x/" ++ ':' :: str "id" ++
        (str "/y/" ++ ':' :: str "id" ++ []))
        [(str "id", str "Z")]
      = str "b" ++ (str "/x/" ++ encodeURIComponent (str "Z") ++
          (str "/y/" ++ ':' :: str "id" ++ [])) :=
  buildUrl_first_occurrence_only.1 (str "b") (str "id") (str "Z") (str "/x/")
    (str "/y/") [] (by decide)

/-- Skipped entries do not change the `URLSearchParams` accumulation. -/
theorem qsFold_filter (qp : List (Str × JsVal)) (acc : List (Str × Str)) :
    qp.foldl qsStep acc = (qp.filter qsKeep).foldl qsStep acc := by
  induction qp generalizing acc with
  | nil => rfl
  | cons kv rest ih =>
    cases hv : kv.2 with
    | undef =>
      have hk : qsKeep kv = false := by simp [qsKeep, hv]
      have hstep : qsStep acc kv = acc := by simp [qsStep, hv]
      simp [List.foldl_cons, List.filter_cons, hk, hstep, ih]
    | nullv =>
      have hk : qsKeep kv = false := by simp [qsKeep, hv]
      have hstep : qsStep acc kv = acc := by simp [qsStep, hv]
      simp [List.foldl_cons, List.filter_cons, hk, hstep, ih]
    | num n =>
      have hk : qsKeep kv = true := by simp [qsKeep, hv]
      simp [List.foldl_cons, List.filter_cons, hk, ih]
    | boolv bb =>
      have hk : qsKeep kv = true := by simp [qsKeep, hv]
      simp [List.foldl_cons, List.filter_cons, hk, ih]
    | strv s =>
      have hk : qsKeep kv = true := by simp [qsKeep, hv]
      simp [List.foldl_cons, List.filter_cons, hk, ih]
    | obj j =>
      have hk : qsKeep kv = true := by simp [qsKeep, hv]
      simp [List.foldl_cons, List.filter_cons, hk, ih]

/-- C6: `buildQueryString` omits `undefined`/`null` entries, serializes
object values as their JSON text before form-encoding, stringifies scalars,
and returns the empty string when no parameters remain; concrete examples
included. -/
theorem buildQueryString_correct :
    (∀ qp : List (Str × JsVal),
       buildQueryString qp = buildQueryString (qp.filter qsKeep)) ∧
    (∀ qp : List (Str × JsVal),
       (∀ p ∈ qp, p.2 = JsVal.undef ∨ p.2 = JsVal.nullv) →
       buildQueryString qp = []) ∧
    (∀ k j : Str, buildQueryString [(k, JsVal.obj j)]
       = '?' :: (formEncode k ++ '=' :: formEncode j)) ∧
    (∀ (k : Str) (n : Int), buildQueryString [(k, JsVal.num n)]
       = '?' :: (formEncode k ++ '=' :: formEncode (intToStr n))) ∧
    (∀ k s : Str, buildQueryString [(k, JsVal.strv s)]
       = '?' :: (formEncode k ++ '=' :: formEncode s)) ∧
    buildQueryString [(str "limit", JsVal.num 10)] = str "?limit=10" ∧
    buildQueryString [] = [] := by
  have hcons : ∀ (a : Str) (c : Char) (b : Str), (a ++ c :: b).isEmpty = false := by
    intro a c b
    cases a <;> rfl
  have hsingle : ∀ (k v : Str),
      qsRender [(k, v)] = '?' :: (formEncode k ++ '=' :: formEncode v) := by
    intro k v
    unfold qsRender
    simp only [List.map_cons, List.map_nil]
    simp [joinSep, hcons]
  refine ⟨?_, ?_, ?_, ?_, ?_, by decide, rfl⟩
  · intro qp
    by_cases hq : qp = []
    · subst hq
      rfl
    · have hqe : qp.isEmpty = false := by
        cases qp with
        | nil => exact absurd rfl hq
        | cons a l => rfl
      have hfold := qsFold_filter qp []
      by_cases hf : qp.filter qsKeep = []
      · have hz : qp.foldl qsStep ([] : List (Str × Str)) = [] := by
          rw [hfold, hf]
          rfl
        rw [hf]
        simp [buildQueryString, hqe, hz, qsRender, joinSep]
      · have hfe : (qp.filter qsKeep).isEmpty = false := by
          cases hff : qp.filter qsKeep with
          | nil => exact absurd hff hf
          | cons a l => rfl
        simp [buildQueryString, hqe, hfe, hfold]
  · intro qp hall
    have hf : qp.filter qsKeep = [] := by
      rw [List.filter_eq_nil_iff]
      intro p hp
      rcases hall p hp with h | h <;> simp [qsKeep, h]
    by_cases hq : qp = []
    · subst hq
      rfl
    · have hqe : qp.isEmpty = false := by
        cases qp with
        | nil => exact absurd rfl hq
        | cons a l => rfl
      have hz : qp.foldl qsStep ([] : List (Str × Str)) = [] := by
        rw [qsFold_filter qp [], hf]
        rfl
      simp [buildQueryString, hqe, hz, qsRender, joinSep]
  · intro k j
    have h1 : buildQueryString [(k, JsVal.obj j)] = qsRender [(k, j)] := rfl
    rw [h1, hsingle]
  · intro k n
    have h1 : buildQueryString [(k, JsVal.num n)]
        = qsRender [(k, intToStr n)] := rfl
    rw [h1, hsingle]
  · intro k s
    have h1 : buildQueryString [(k, JsVal.strv s)] = qsRender [(k, s)] := rfl
    rw [h1, hsingle]

/-- C6 witness: the all-omitted clause at a concrete null-valued map. -/
theorem buildQueryString_correct_witness :
    buildQueryString [(str "metadata", JsVal.nullv), (str "page", JsVal.undef)]
      = [] :=
  buildQueryString_correct.2.1
    [(str "metadata", JsVal.nullv), (str "page", JsVal.undef)]
    (by decide)


end Midaz
